import Mathlib

/-!
Shallow embedding of the client-side workflow of the Image-Fixing-Tool
(the React page in the repository, version with quality checks, fix
selection and the aspect-ratio-locked dimension editor).

The component state is modelled as a record `AppState` mirroring the five
`useState` hooks of the page.  The event handlers `onDrop`,
`handleDimensionChange`, `checkImage`, `processImage` and `reset` are
translated as pure state transformers; the network round trip of
`checkImage`/`processImage` is an explicit outcome parameter, and the
functions additionally return a `Bool` recording whether a network request
was issued.  Object URLs are modelled as natural-number handles; a `World`
layer threads a fresh-handle counter and logs of created and revoked
handles through the operations that touch `URL.createObjectURL` /
`URL.revokeObjectURL`.
-/

namespace ImageFix

/-- A width/height pair (the source stores plain JS numbers; every value
flowing into these fields is an integer: `parseInt`, `Math.round`,
`img.width`/`img.height`). -/
structure Dims where
  width : Int
  height : Int
deriving DecidableEq

/-- The `File` object: only the fields the page reads. -/
structure FileData where
  name : String
  size : Nat
deriving DecidableEq

/-- Model of `interface OriginalImage`: the file plus its preview string. -/
structure OriginalImage where
  file : FileData
  preview : String
deriving DecidableEq

/-- Model of `interface ProcessingState`; `processedImage` is an object-URL handle. -/
structure ProcessingState where
  isProcessing : Bool
  error : Option String
  processedImage : Option Nat
  processedImageDimensions : Option Dims
deriving DecidableEq

/-- The `results` payload of a successful check response. -/
structure CheckResults where
  background_check : Bool
  dimension_check : Bool
  alignment_check : Bool
  target_dimensions : Option Dims
deriving DecidableEq

/-- Model of `interface CheckState`. -/
structure CheckState where
  isChecking : Bool
  error : Option String
  results : Option CheckResults
deriving DecidableEq

/-- Model of `interface FixOptions`. -/
structure FixOptions where
  fix_dimensions : Bool
  fix_background : Bool
  fix_alignment : Bool
deriving DecidableEq

/-- The whole component state: one field per `useState` hook. -/
structure AppState where
  originalImage : Option OriginalImage
  originalDimensions : Option Dims
  dimensions : Dims
  state : ProcessingState
  checkState : CheckState
  fixOptions : FixOptions
deriving DecidableEq

/-- The initial values of the five hooks. -/
def initialState : AppState :=
  { originalImage := none
    originalDimensions := none
    dimensions := ⟨1200, 1200⟩
    state := ⟨false, none, none, none⟩
    checkState := ⟨false, none, none⟩
    fixOptions := ⟨true, true, true⟩ }

/-- JS `Math.round`: round half toward positive infinity. -/
def jsRound (x : ℚ) : ℤ := ⌊x + 1 / 2⌋

/-- The `field` argument of `handleDimensionChange`. -/
inductive DimField where
  | width
  | height
deriving DecidableEq

/-- Projection of a `Dims` at a `DimField`. -/
def dimOf (d : Dims) : DimField → ℤ
  | DimField.width => d.width
  | DimField.height => d.height

/-- Handler `handleDimensionChange(field, value)`: with an original image the
opposite field is recomputed from `aspectRatio = ow / oh`; without one only
the edited field changes. -/
def handleDimensionChange (s : AppState) (field : DimField) (value : ℤ) : AppState :=
  match s.originalDimensions with
  | some od =>
      let aspect : ℚ := (od.width : ℚ) / (od.height : ℚ)
      match field with
      | DimField.width =>
          { s with dimensions := ⟨value, jsRound ((value : ℚ) / aspect)⟩ }
      | DimField.height =>
          { s with dimensions := ⟨jsRound ((value : ℚ) * aspect), value⟩ }
  | none =>
      match field with
      | DimField.width =>
          { s with dimensions := { s.dimensions with width := value } }
      | DimField.height =>
          { s with dimensions := { s.dimensions with height := value } }

/-- Handler `onDrop(acceptedFiles, rejectedFiles)`.  Here `rejected` abstracts
`rejectedFiles.length > 0`; `accepted` bundles the first accepted file with
its decoded preview string and natural dimensions (the `FileReader` /
`Image` onload chain), or `none` when no file arrives or decoding never
fires its onload. -/
def onDrop (s : AppState) (rejected : Bool)
    (accepted : Option (FileData × String × Dims)) : AppState :=
  if rejected then
    { s with state := { s.state with error := some "Please upload a valid image file" } }
  else
    match accepted with
    | none => s
    | some (file, preview, natDims) =>
        { originalImage := some ⟨file, preview⟩
          originalDimensions := some natDims
          dimensions := ⟨1200, 1200⟩
          state := ⟨false, none, none, none⟩
          checkState := ⟨false, none, none⟩
          fixOptions := ⟨true, true, true⟩ }

/-- Handler `checkImage()`.  The outcome of the awaited round trip is a parameter:
`Except.error msg` covers a fetch rejection, a non-ok status (the thrown
`Check failed: ...` message) and a JSON parse failure; `Except.ok r` is a
parsed response body.  The returned `Bool` records whether the fetch was
issued. -/
def checkImage (s : AppState) (outcome : Except String CheckResults) :
    AppState × Bool :=
  match s.originalImage with
  | none => (s, false)
  | some _ =>
      let s1 := { s with checkState := { s.checkState with isChecking := true, error := none } }
      match outcome with
      | Except.ok results =>
          ({ s1 with
              checkState := { s1.checkState with isChecking := false, results := some results }
              fixOptions :=
                { fix_dimensions := !results.dimension_check
                  fix_background := !results.background_check
                  fix_alignment := !results.alignment_check } }, true)
      | Except.error msg =>
          ({ s1 with
              checkState := { s1.checkState with isChecking := false, error := some msg } },
            true)

/-- Outcome of one `processImage` round trip: fetch rejection or non-ok
status; blob received but the returned bytes fail to decode
(`img.onerror`); or blob received and decoded with the given pixel
dimensions (`img.onload`). -/
inductive ProcessResult where
  | netError (msg : String)
  | decodeError
  | ok (d : Dims)
deriving DecidableEq

/-- Handler `processImage()`.  Here `url` is the handle `URL.createObjectURL` would
return for the received blob (used on the two post-blob outcomes).  The
returned `Bool` records whether the fetch was issued. -/
def processImage (s : AppState) (url : Nat) (r : ProcessResult) :
    AppState × Bool :=
  match s.originalImage with
  | none => (s, false)
  | some _ =>
      let s1 := { s with state := { s.state with isProcessing := true, error := none } }
      match r with
      | ProcessResult.netError msg =>
          ({ s1 with state := { s1.state with isProcessing := false, error := some msg } },
            true)
      | ProcessResult.decodeError =>
          ({ s1 with
              state := { s1.state with
                isProcessing := false
                error := some "Failed to load processed image" } }, true)
      | ProcessResult.ok d =>
          ({ s1 with
              state := { s1.state with
                isProcessing := false
                processedImage := some url
                processedImageDimensions := some d } }, true)

/-- Handler `reset()`: every hook back to its initial value (URL revocation is an
effect, handled by the `World` layer). -/
def reset (_s : AppState) : AppState :=
  { originalImage := none
    originalDimensions := none
    dimensions := ⟨1200, 1200⟩
    state := ⟨false, none, none, none⟩
    checkState := ⟨false, none, none⟩
    fixOptions := ⟨true, true, true⟩ }

/-- The `disabled` attribute of the Check Quality button. -/
def checkButtonDisabled (s : AppState) : Bool :=
  s.checkState.isChecking

/-- The `disabled` attribute of the Process button:
`state.isProcessing || !checkState.results`. -/
def processButtonDisabled (s : AppState) : Bool :=
  s.state.isProcessing || s.checkState.results.isNone

/-- World layer: the component state plus a fresh object-URL counter and
logs of created and revoked URL handles. -/
structure World where
  app : AppState
  nextUrl : Nat
  created : List Nat
  revoked : List Nat
deriving DecidableEq

/-- The world before any event. -/
def initialWorld : World := ⟨initialState, 0, [], []⟩

/-- Lift of `onDrop` to world level: the handler revokes nothing. -/
def onDropW (w : World) (rejected : Bool)
    (accepted : Option (FileData × String × Dims)) : World :=
  { w with app := onDrop w.app rejected accepted }

/-- Lift of `checkImage` to world level: no URL is created or revoked. -/
def checkImageW (w : World) (outcome : Except String CheckResults) : World :=
  { w with app := (checkImage w.app outcome).1 }

/-- Lift of `processImage` to world level: when a blob is received
(`decodeError` or `ok`), `URL.createObjectURL` allocates a fresh handle;
no handle is ever revoked here. -/
def processImageW (w : World) (r : ProcessResult) : World :=
  match w.app.originalImage with
  | none => w
  | some _ =>
      match r with
      | ProcessResult.netError msg =>
          { w with app := (processImage w.app 0 (ProcessResult.netError msg)).1 }
      | ProcessResult.decodeError =>
          { w with
            app := (processImage w.app w.nextUrl ProcessResult.decodeError).1
            nextUrl := w.nextUrl + 1
            created := w.created ++ [w.nextUrl] }
      | ProcessResult.ok d =>
          { w with
            app := (processImage w.app w.nextUrl (ProcessResult.ok d)).1
            nextUrl := w.nextUrl + 1
            created := w.created ++ [w.nextUrl] }

/-- Lift of `reset` to world level: it revokes the processed-image URL held in the
pre-reset state, when one exists, and nothing else. -/
def resetW (w : World) : World :=
  { app := reset w.app
    nextUrl := w.nextUrl
    created := w.created
    revoked := w.revoked ++
      (match w.app.state.processedImage with
        | some u => [u]
        | none => []) }

/-- Claim C2: a successful check overwrites the fix selection wholesale
with the pointwise negation of the three boolean results, whatever the
prior selection was, and stores the new results. -/
theorem check_success_negates_selection (s : AppState) (img : OriginalImage)
    (r : CheckResults) :
    ((checkImage { s with originalImage := some img } (Except.ok r)).1).fixOptions
        = ⟨!r.dimension_check, !r.background_check, !r.alignment_check⟩
    ∧ ((checkImage { s with originalImage := some img } (Except.ok r)).1).checkState.results
        = some r := by
  constructor <;> rfl

/-- Claim C3: with an original image of natural dimensions `od`, editing
width to `v` stores `v` verbatim and sets height to
`round(v * od.height / od.width)`; editing height to `v` stores `v` and
sets width to `round(v * od.width / od.height)`.  Without an original
image only the edited field changes. -/
theorem setDimension_aspect_locked (s : AppState) (od : Dims) (v : ℤ) :
    (handleDimensionChange { s with originalDimensions := some od } DimField.width v).dimensions
        = ⟨v, jsRound ((v : ℚ) * (od.height : ℚ) / (od.width : ℚ))⟩
    ∧ (handleDimensionChange { s with originalDimensions := some od } DimField.height v).dimensions
        = ⟨jsRound ((v : ℚ) * (od.width : ℚ) / (od.height : ℚ)), v⟩
    ∧ (handleDimensionChange { s with originalDimensions := none } DimField.width v).dimensions
        = ⟨v, s.dimensions.height⟩
    ∧ (handleDimensionChange { s with originalDimensions := none } DimField.height v).dimensions
        = ⟨s.dimensions.width, v⟩ := by
  refine ⟨?_, ?_, rfl, rfl⟩
  · show (⟨v, jsRound ((v : ℚ) / ((od.width : ℚ) / (od.height : ℚ)))⟩ : Dims) = _
    rw [div_div_eq_mul_div]
  · show (⟨jsRound ((v : ℚ) * ((od.width : ℚ) / (od.height : ℚ))), v⟩ : Dims) = _
    rw [mul_div_assoc]

/-- Claim C5: a successful upload of a new file resets the whole session:
check results and processed artifact are null, both error slots are
cleared, the fix selection is all-true, and the target dimensions are the
fixed default 1200 by 1200. -/
theorem upload_resets_session (s : AppState) (f : FileData) (p : String)
    (d : Dims) :
    onDrop s false (some (f, p, d))
        = { originalImage := some ⟨f, p⟩
            originalDimensions := some d
            dimensions := ⟨1200, 1200⟩
            state := ⟨false, none, none, none⟩
            checkState := ⟨false, none, none⟩
            fixOptions := ⟨true, true, true⟩ } := by
  rfl

/-- Claim C10: with an original image present, the dimensions produced by
`handleDimensionChange` depend only on the edited field, the edited value
and the natural dimensions, not on the previously stored pair; hence the
operation is idempotent and edits accumulate no rounding drift. -/
theorem setDimension_history_free (s t : AppState) (od : Dims)
    (field : DimField) (v : ℤ) :
    (handleDimensionChange { s with originalDimensions := some od } field v).dimensions
        = (handleDimensionChange { t with originalDimensions := some od } field v).dimensions
    ∧ (handleDimensionChange
          (handleDimensionChange { s with originalDimensions := some od } field v)
          field v).dimensions
        = (handleDimensionChange { s with originalDimensions := some od } field v).dimensions := by
  cases field <;> exact ⟨rfl, rfl⟩

/-- Claim C4: a failed check leaves the stored results and the fix
selection untouched and stores the error message; a failed process call
(non-ok status or decode failure of the returned bytes) leaves a
previously stored processed image and its dimensions untouched. -/
theorem remote_failure_atomic (s : AppState) (img : OriginalImage)
    (msg : String) (u : Nat) :
    ((checkImage { s with originalImage := some img } (Except.error msg)).1.checkState.results
        = s.checkState.results
      ∧ (checkImage { s with originalImage := some img } (Except.error msg)).1.fixOptions
        = s.fixOptions
      ∧ (checkImage { s with originalImage := some img } (Except.error msg)).1.checkState.error
        = some msg)
    ∧ ((processImage { s with originalImage := some img } u (ProcessResult.netError msg)).1.state.processedImage
        = s.state.processedImage
      ∧ (processImage { s with originalImage := some img } u (ProcessResult.netError msg)).1.state.processedImageDimensions
        = s.state.processedImageDimensions
      ∧ (processImage { s with originalImage := some img } u (ProcessResult.netError msg)).1.state.error
        = some msg)
    ∧ ((processImage { s with originalImage := some img } u ProcessResult.decodeError).1.state.processedImage
        = s.state.processedImage
      ∧ (processImage { s with originalImage := some img } u ProcessResult.decodeError).1.state.processedImageDimensions
        = s.state.processedImageDimensions
      ∧ (processImage { s with originalImage := some img } u ProcessResult.decodeError).1.state.error
        = some "Failed to load processed image") := by
  exact ⟨⟨rfl, rfl, rfl⟩, ⟨rfl, rfl, rfl⟩, ⟨rfl, rfl, rfl⟩⟩

/-- Claim C9, counterexample: in the empty state (no SourceImage) both
guards return with the state completely unchanged — no network request is
issued, but no NoImage error is surfaced either: both error slots are
still `none` afterwards, contradicting the claim that the failure is
stored as an error of the corresponding origin. -/
theorem noImage_guard_is_silent :
    initialState.originalImage = none
    ∧ checkImage initialState (Except.error "boom") = (initialState, false)
    ∧ processImage initialState 0 (ProcessResult.netError "boom") = (initialState, false)
    ∧ (checkImage initialState (Except.error "boom")).1.checkState.error = none
    ∧ (processImage initialState 0 (ProcessResult.netError "boom")).1.state.error = none := by
  exact ⟨rfl, rfl, rfl, rfl, rfl⟩

/-- Claim C9, amended: with no SourceImage, `checkImage` and
`processImage` issue no network request and return with the state
unchanged; the guard is a silent early return that stores no error. -/
theorem noImage_guard_no_request (s : AppState)
    (o : Except String CheckResults) (u : Nat) (r : ProcessResult) :
    checkImage { s with originalImage := none } o
        = ({ s with originalImage := none }, false)
    ∧ processImage { s with originalImage := none } u r
        = ({ s with originalImage := none }, false) := by
  exact ⟨rfl, rfl⟩

/-- A session state with an image loaded but no check run yet. -/
def sNoCheck : AppState :=
  { initialState with
    originalImage := some ⟨⟨"photo.png", 1000⟩, "preview-data"⟩
    originalDimensions := some ⟨2000, 1000⟩ }

/-- Claim C1, counterexample: in a state with a SourceImage and
`checkState.results = null`, invoking `processImage` does issue the
network request — the function body guards only on the image, so the
no-CheckResult rejection is not enforced at the controller level. -/
theorem process_runs_without_checkResult :
    sNoCheck.checkState.results = none
    ∧ (processImage sNoCheck 0 (ProcessResult.ok ⟨1200, 1200⟩)).2 = true := by
  exact ⟨rfl, rfl⟩

/-- Claim C1, amended: `startProcess` is rejected with no request only
when no SourceImage exists; with a SourceImage present the request is
issued even when `checkState.results` is null.  The no-CheckResult
rejection exists only as a UI affordance: the process button is disabled
whenever `results` is null. -/
theorem process_guard_is_image_only (s : AppState) (img : OriginalImage)
    (u : Nat) (r : ProcessResult) :
    (processImage { s with originalImage := none } u r).2 = false
    ∧ (processImage { s with originalImage := some img } u r).2 = true
    ∧ processButtonDisabled
        { s with checkState := { s.checkState with results := none } } = true := by
  refine ⟨?_, ?_, ?_⟩
  · rfl
  · cases r <;> rfl
  · simp [processButtonDisabled]

/-- A session with an image loaded and a check currently in flight. -/
def sChecking : AppState :=
  { sNoCheck with checkState := ⟨true, none, none⟩ }

/-- A session with an image loaded, a completed check and a process call
currently in flight. -/
def sProcessing : AppState :=
  { sNoCheck with
    checkState := ⟨false, none, some ⟨true, true, true, none⟩⟩
    state := ⟨true, none, none, none⟩ }

/-- Claim C7, counterexample: with a check already in flight
(`isChecking = true`), invoking `checkImage` again does issue a second
network request, and likewise for `processImage` while
`isProcessing = true` — neither function consults the in-flight flag. -/
theorem inflight_reinvoke_issues_request :
    sChecking.checkState.isChecking = true
    ∧ (checkImage sChecking (Except.ok ⟨true, true, true, none⟩)).2 = true
    ∧ sProcessing.state.isProcessing = true
    ∧ (processImage sProcessing 0 (ProcessResult.ok ⟨100, 100⟩)).2 = true := by
  exact ⟨rfl, rfl, rfl, rfl⟩

/-- Claim C7, amended: re-invocation while a same-kind call is in flight
is suppressed only by the UI: the check button is disabled exactly while
`isChecking` and the process button while `isProcessing`; the
`checkImage`/`processImage` functions themselves issue a request whenever
a SourceImage is present, regardless of the in-flight flags. -/
theorem inflight_suppression_is_ui_only (s : AppState) (img : OriginalImage)
    (o : Except String CheckResults) (u : Nat) (r : ProcessResult) :
    (checkImage
        { s with originalImage := some img
                 checkState := { s.checkState with isChecking := true } } o).2 = true
    ∧ (processImage
        { s with originalImage := some img
                 state := { s.state with isProcessing := true } } u r).2 = true
    ∧ checkButtonDisabled
        { s with checkState := { s.checkState with isChecking := true } } = true
    ∧ processButtonDisabled
        { s with state := { s.state with isProcessing := true } } = true := by
  refine ⟨?_, ?_, rfl, ?_⟩
  · cases o <;> rfl
  · cases r <;> rfl
  · simp [processButtonDisabled]

/-- A session whose original image is 5000 by 1 pixels. -/
def sWide : AppState :=
  { initialState with
    originalImage := some ⟨⟨"banner.png", 1000⟩, "preview-data"⟩
    originalDimensions := some ⟨5000, 1⟩ }

/-- Claim C6, counterexample: starting from in-range target dimensions
(1200 by 1200) and editing width to the in-range value 1, the
aspect-ratio lock recomputes height as `round(1 / 5000) = 0`, which lies
outside [1, 5000]. -/
theorem aspect_recompute_escapes_bounds :
    (1 ≤ sWide.dimensions.width ∧ sWide.dimensions.width ≤ 5000
      ∧ 1 ≤ sWide.dimensions.height ∧ sWide.dimensions.height ≤ 5000)
    ∧ (1 ≤ (1 : ℤ) ∧ (1 : ℤ) ≤ 5000)
    ∧ (handleDimensionChange sWide DimField.width 1).dimensions.height = 0 := by
  refine ⟨⟨by decide, by decide, by decide, by decide⟩, ⟨by decide, by decide⟩, ?_⟩
  have h : (handleDimensionChange sWide DimField.width 1).dimensions.height
      = jsRound (((1 : ℤ) : ℚ) / (((5000 : ℤ) : ℚ) / ((1 : ℤ) : ℚ))) := rfl
  rw [h]
  norm_num [jsRound]

/-- Claim C6, amended: upload and reset set the target dimensions to the
in-range default 1200 by 1200, check and process leave them unchanged,
and `handleDimensionChange` stores the edited field verbatim (so that
field is in range whenever the edited value is); but the field recomputed
by the aspect-ratio lock is `round` of a ratio and can fall outside
[1, 5000]. -/
theorem dimension_bounds_amended (s : AppState) (f : FileData) (p : String)
    (d : Dims) (o : Except String CheckResults) (u : Nat) (r : ProcessResult)
    (field : DimField) (v : ℤ) :
    (onDrop s false (some (f, p, d))).dimensions = ⟨1200, 1200⟩
    ∧ (reset s).dimensions = ⟨1200, 1200⟩
    ∧ (checkImage s o).1.dimensions = s.dimensions
    ∧ (processImage s u r).1.dimensions = s.dimensions
    ∧ dimOf (handleDimensionChange s field v).dimensions field = v := by
  obtain ⟨oi, odm, dims, st, cs, fo⟩ := s
  refine ⟨rfl, rfl, ?_, ?_, ?_⟩
  · cases oi <;> cases o <;> rfl
  · cases oi <;> cases r <;> rfl
  · cases odm <;> cases field <;> rfl

/-- The world after uploading a 100 by 100 image into the empty state. -/
def w1 : World :=
  onDropW initialWorld false (some (⟨"photo.png", 1000⟩, "preview-data", ⟨100, 100⟩))

/-- The world after a completed (all-failed) quality check. -/
def w2 : World := checkImageW w1 (Except.ok ⟨false, false, false, none⟩)

/-- The world after a first successful process call: URL handle 0 is
created and stored. -/
def w3 : World := processImageW w2 (ProcessResult.ok ⟨100, 100⟩)

/-- The world after a second successful process call: URL handle 1 is
created and replaces handle 0 in the state. -/
def w4 : World := processImageW w3 (ProcessResult.ok ⟨100, 100⟩)

/-- The world after the final reset. -/
def w5 : World := resetW w4

/-- Claim C8: along the trace upload, check, process, process, reset, the
object URL of the first process call (handle 0) is superseded by handle 1
from the second call, yet only handle 1 is ever revoked — handle 0 is created
and never released, so superseded URLs leak. -/
theorem superseded_url_never_revoked :
    w3.app.state.processedImage = some 0
    ∧ w4.app.state.processedImage = some 1
    ∧ w5.created = [0, 1]
    ∧ w5.revoked = [1]
    ∧ 0 ∈ w5.created
    ∧ 0 ∉ w5.revoked := by
  refine ⟨rfl, rfl, rfl, rfl, ?_, ?_⟩
  · rw [show w5.created = [0, 1] from rfl]
    decide
  · rw [show w5.revoked = [1] from rfl]
    decide

end ImageFix
